import Mathlib

/-!
Verification of the request-understanding and response-assembly pipeline of the
rural survey chatbot backend.

Shallow embedding conventions:
- Python floats are modelled by exact rationals (ℚ).
- Python dicts are modelled by association lists in insertion order.
- The Python `re` module is an external deterministic matcher; where a claim does
  not depend on the semantics of a particular regular expression, `re.search` /
  `re.findall` are abstracted as a `RegexOracle` parameter.  The specific pattern
  `\b\d{6}\b` (pincode extraction), whose semantics claims do depend on, is
  embedded concretely.
- Raising Python code is embedded in `Except Unit`; a `try/except` handler is a
  `match` on the embedded computation.
-/

/-- Substring test: Python `pat in s` for strings.  `listInfixOf p s` decides
whether `p` occurs as a contiguous run inside `s`. -/
def listInfixOf (p : List Char) : List Char → Bool
  | [] => p.isEmpty
  | c :: t => p.isPrefixOf (c :: t) || listInfixOf p t

/-- Python `pat in s` on strings (contiguous substring). -/
def strContains (s pat : String) : Bool :=
  listInfixOf pat.data s.data

/-- Python `str.lower()` (character-wise; `Char.toLower` covers the ASCII
range, which matches the lowercase/caseless text this system processes). -/
def pyLower (s : String) : String :=
  String.mk (s.data.map Char.toLower)

/-- Python `str.strip()` with no argument: drop leading and trailing
whitespace. -/
def pyStrip (s : String) : String :=
  String.mk (((s.data.dropWhile Char.isWhitespace).reverse.dropWhile Char.isWhitespace).reverse)

/-- Maximal runs of characters satisfying `p` (used for tokenisation and for
word-boundary reasoning). -/
def runsBy (p : Char → Bool) (cs : List Char) : List (List Char) :=
  let step := fun c (r : List (List Char) × List Char) =>
    if p c then (r.1, c :: r.2)
    else (if r.2.isEmpty then r.1 else r.2 :: r.1, ([] : List Char))
  let r := cs.foldr step ([], [])
  if r.2.isEmpty then r.1 else r.2 :: r.1

/-- Python `str.split()` with no argument: the maximal runs of
non-whitespace characters. -/
def pySplit (s : String) : List String :=
  (runsBy (fun c => !c.isWhitespace) s.data).map String.mk

/-- ASCII core of Python's Unicode `\w` (word character): alphanumeric or
underscore; non-ASCII code points are treated as word characters, which agrees
with Python for the Devanagari/Telugu text this system handles. -/
def isPyWordChar (c : Char) : Bool :=
  c.isAlphanum || c == '_' || decide (128 ≤ c.toNat)

/-- Maximal runs of word characters in a character list (used to embed the
word-boundary semantics of `\b\d{6}\b`). -/
def wordRuns (cs : List Char) : List (List Char) :=
  runsBy isPyWordChar cs

/-- Embedding of `re.search(r"\b\d{6}\b", s)`: the first match of six digits
delimited by word boundaries.  A window of six digit characters has word
boundaries on both sides exactly when it is a maximal word-character run, so the
first match is the first maximal run consisting of exactly six digits. -/
def findSixDigit (s : String) : Option String :=
  ((wordRuns s.data).find? fun r => r.length == 6 && r.all Char.isDigit).map
    fun r => String.mk r

/-- Values stored in an extracted-entity mapping: `re.findall` produces a single
string when there is one match and a list of strings otherwise, and context
values are merged in as-is. -/
inductive EntityVal where
  | s (v : String)
  | l (vs : List String)
deriving DecidableEq, Repr

/-- Python truthiness of an optional entity value (`if not pincode: ...`). -/
def entityTruthy : Option EntityVal → Bool
  | none => false
  | some (.s v) => v ≠ ""
  | some (.l vs) => !vs.isEmpty

/-- The result of `detect_intent` (`models/schemas.py`, class `Intent`), with
`confidence` as an exact rational and `entities` as an insertion-ordered
association list. -/
structure Intent where
  name : String
  confidence : ℚ
  entities : List (String × EntityVal)
deriving DecidableEq, Repr

/-- One entry of `IntentDetector.intent_patterns`: keyword list, regex pattern
list (kept as their source strings) and expected entity types. -/
structure IntentDef where
  name : String
  keywords : List String
  patterns : List String
  entities : List String
deriving DecidableEq, Repr

/-- Abstraction of the deterministic `re` module: `search pat text` decides
`re.search(pat, text, re.IGNORECASE)` and `findall pat text` lists the matches
of `re.findall(pat, text, ...)` (group contents when the pattern has a group). -/
structure RegexOracle where
  search : String → String → Bool
  findall : String → String → List String

/-- `IntentDetector.intent_patterns` (src/backend/services/intent_detector.py,
lines 18-114), in declaration order. -/
def intentDefs : List IntentDef := [
  { name := "survey_mla_name",
    keywords := ["mla", "विधायक", "member legislative assembly", "local representative", "assembly member"],
    patterns := ["\\b(who is|what is|tell me about|find|search).*(mla|विधायक|member legislative assembly)\\b",
                 "\\b(mla|विधायक).*(name|information|details|contact)\\b",
                 "\\b(my|our|local).*(mla|विधायक|representative)\\b"],
    entities := ["location", "constituency"] },
  { name := "survey_mp_name",
    keywords := ["mp", "सांसद", "member parliament", "parliament member", "lok sabha"],
    patterns := ["\\b(who is|what is|tell me about|find|search).*(mp|सांसद|member parliament)\\b",
                 "\\b(mp|सांसद).*(name|information|details|contact)\\b",
                 "\\b(my|our|local).*(mp|सांसद|parliament member)\\b"],
    entities := ["location", "constituency"] },
  { name := "opinion_mla",
    keywords := ["opinion", "feedback", "review", "satisfaction", "performance", "work", "राय"],
    patterns := ["\\b(opinion|feedback|review|satisfaction).*(mla|विधायक)\\b",
                 "\\b(mla|विधायक).*(work|performance|good|bad|excellent|poor)\\b",
                 "\\b(how is|what do you think).*(mla|विधायक)\\b"],
    entities := ["sentiment", "representative_name"] },
  { name := "opinion_mp",
    keywords := ["opinion", "feedback", "review", "satisfaction", "performance", "work", "राय"],
    patterns := ["\\b(opinion|feedback|review|satisfaction).*(mp|सांसद)\\b",
                 "\\b(mp|सांसद).*(work|performance|good|bad|excellent|poor)\\b",
                 "\\b(how is|what do you think).*(mp|सांसद)\\b"],
    entities := ["sentiment", "representative_name"] },
  { name := "ask_scheme_info",
    keywords := ["scheme", "yojana", "योजना", "pmay", "housing", "awas", "आवास", "benefit", "subsidy"],
    patterns := ["\\b(what is|tell me about|information about|details of).*(scheme|yojana|योजना)\\b",
                 "\\b(pmay|pradhan mantri awas yojana|housing scheme|आवास योजना)\\b",
                 "\\b(government scheme|सरकारी योजना|benefit|subsidy|लाभ)\\b",
                 "\\b(how to apply|eligibility|documents required).*(scheme|yojana)\\b"],
    entities := ["scheme_name"] },
  { name := "ask_phc_location",
    keywords := ["hospital", "health", "phc", "doctor", "medical", "clinic", "अस्पताल", "स्वास्थ्य"],
    patterns := ["\\b(find|search|locate|where is).*(hospital|health center|phc|clinic|अस्पताल)\\b",
                 "\\b(nearest|nearby|closest).*(hospital|health|medical|doctor|अस्पताल)\\b",
                 "\\b(health facility|medical facility|primary health center)\\b",
                 "\\b(emergency|ambulance|108)\\b"],
    entities := ["location", "facility_type"] },
  { name := "ask_commodity_price",
    keywords := ["price", "rate", "cost", "mandi", "market", "wheat", "rice", "dal", "कीमत", "दाम", "मंडी"],
    patterns := ["\\b(price|rate|cost|कीमत|दाम).*(wheat|rice|dal|onion|potato|गेहूं|चावल|दाल)\\b",
                 "\\b(mandi|market|मंडी).*(price|rate|भाव)\\b",
                 "\\b(current|today|latest).*(price|rate|कीमत)\\b",
                 "\\b(commodity|crop|फसल).*(price|market|मंडी)\\b"],
    entities := ["commodity_name", "location", "market_name"] },
  { name := "ask_pincode_help",
    keywords := ["pincode", "postal code", "zip code", "pin", "पिन कोड", "district", "village"],
    patterns := ["\\b(pincode|postal code|pin code|पिन कोड).*(information|details|find)\\b",
                 "\\b(which district|what district).*(pincode|pin|पिन)\\b",
                 "\\b(village|district|state).*(pincode|pin code)\\b",
                 "\\b\\d{6}\\b.*\\b(information|details|location)\\b"],
    entities := ["pincode", "location"] },
  { name := "general_faq",
    keywords := ["how to", "apply", "documents", "process", "procedure", "कैसे", "आवेदन", "दस्तावेज"],
    patterns := ["\\b(how to|कैसे).*(apply|आवेदन|register|get)\\b",
                 "\\b(documents|papers|दस्तावेज).*(required|needed|चाहिए)\\b",
                 "\\b(process|procedure|प्रक्रिया|steps)\\b",
                 "\\b(ration card|voter id|pan card|aadhaar|राशन कार्ड)\\b"],
    entities := ["document_type", "service_type"] },
  { name := "fallback_handoff",
    keywords := ["help", "support", "contact", "complaint", "problem", "मदद", "सहायता"],
    patterns := ["\\b(help|support|assistance|मदद|सहायता)\\b",
                 "\\b(complaint|problem|issue|समस्या|शिकायत)\\b",
                 "\\b(contact|call|phone|संपर्क)\\b"],
    entities := [] }]

/-- `IntentDetector.entity_patterns` (lines 117-123). -/
def entityPatterns : List (String × String) := [
  ("pincode", "\\b\\d{6}\\b"),
  ("phone", "\\b\\d{10}\\b|\\b\\d{3}-\\d{3}-\\d{4}\\b"),
  ("location", "\\b(delhi|mumbai|bangalore|chennai|kolkata|hyderabad|pune|ahmedabad|jaipur|lucknow)\\b"),
  ("commodity", "\\b(wheat|rice|dal|onion|potato|tomato|sugar|oil|गेहूं|चावल|दाल|प्याज|आलू)\\b"),
  ("scheme", "\\b(pmay|jan aushadhi|ayushman bharat|kisan|pradhan mantri|आवास योजना)\\b")]

/-- `IntentDetector._calculate_intent_score` (lines 167-189):
count keyword substring hits and pattern hits, add the two guarded weighted
fractions, cap at 1. -/
def calculate_intent_score (ro : RegexOracle) (text : String) (d : IntentDef) : ℚ :=
  let km := (d.keywords.filter fun k => strContains text (pyLower k)).length
  let score1 : ℚ := if 0 < km then ((km : ℚ) / (d.keywords.length : ℚ)) * (6/10) else 0
  let pm := (d.patterns.filter fun p => ro.search p text).length
  let score2 : ℚ := if 0 < pm then score1 + ((pm : ℚ) / (d.patterns.length : ℚ)) * (4/10) else score1
  min score2 1

/-- The spec's scoring sentence, written as stated there:
`score = 0.6 × (matched_keywords / total_keywords) + 0.4 × (matched_patterns / total_pattern)`,
capped at 1.0 (for comparison against `calculate_intent_score`). -/
def specIntentScore (ro : RegexOracle) (text : String) (d : IntentDef) : ℚ :=
  let km := (d.keywords.filter fun k => strContains text (pyLower k)).length
  let pm := (d.patterns.filter fun p => ro.search p text).length
  min ((6/10) * ((km : ℚ) / (d.keywords.length : ℚ)) +
       (4/10) * ((pm : ℚ) / (d.patterns.length : ℚ))) 1

/-- Selection of the best intent: the code stores the positive scores in an
insertion-ordered dict and takes `max(intent_scores, key=intent_scores.get)`;
CPython's `max` replaces the running best only on a strictly greater key, so the
first entry attaining the maximum wins.  `pickIntent` computes exactly that:
drop non-positive scores, return the first entry attaining the maximum score. -/
def pickIntent : List (String × ℚ) → Option (String × ℚ)
  | [] => none
  | p :: ps =>
    match pickIntent ps with
    | none => if 0 < p.2 then some p else none
    | some q => if 0 < p.2 then (if p.2 < q.2 then some q else some p) else some q

/-- `IntentDetector._extract_entities` (lines 191-249): generic regex
extractors, then intent-specific extraction, then merge of context values for
keys not already present. -/
def extract_entities (ro : RegexOracle) (text : String) (intentName : String)
    (context : Option (List (String × EntityVal))) : List (String × EntityVal) :=
  let base := entityPatterns.foldl (fun acc ep =>
    match ro.findall ep.2 text with
    | [] => acc
    | [m] => acc ++ [(ep.1, EntityVal.s m)]
    | ms => acc ++ [(ep.1, EntityVal.l ms)]) []
  let namePatterns := ["\\b([A-Z][a-z]+ [A-Z][a-z]+)\\b", "\\b([A-Z][a-z]+ [A-Z]\\. [A-Z][a-z]+)\\b"]
  let withSpecific :=
    if intentName = "survey_mla_name" ∨ intentName = "survey_mp_name" ∨
       intentName = "opinion_mla" ∨ intentName = "opinion_mp" then
      match (namePatterns.map fun p => ro.findall p text).find? (fun ms => !ms.isEmpty) with
      | some (m :: _) => base ++ [("representative_name", EntityVal.s m)]
      | _ => base
    else if intentName = "ask_scheme_info" then
      match ["pmay", "awas", "housing", "jan aushadhi", "ayushman", "kisan"].find?
          (fun k => strContains (pyLower text) k) with
      | some k => base ++ [("scheme_name", EntityVal.s k)]
      | none => base
    else if intentName = "ask_commodity_price" then
      match ["wheat", "rice", "dal", "onion", "potato", "tomato", "sugar"].find?
          (fun k => strContains (pyLower text) k) with
      | some k => base ++ [("commodity_name", EntityVal.s k)]
      | none => base
    else if intentName = "ask_phc_location" then
      match ["hospital", "phc", "clinic", "health center"].find?
          (fun k => strContains (pyLower text) k) with
      | some k => base ++ [("facility_type", EntityVal.s k)]
      | none => base
    else base
  (context.getD []).foldl (fun acc kv =>
    if (acc.lookup kv.1).isNone && entityTruthy (some kv.2) then acc ++ [kv] else acc)
    withSpecific

/-- Per-intent scores, in declaration order, as computed inside `detect_intent`
(lines 130-136) over the lowercased text. -/
def intentScores (ro : RegexOracle) (text : String) : List (String × ℚ) :=
  intentDefs.map fun d => (d.name, calculate_intent_score ro (pyLower text) d)

/-- `IntentDetector.detect_intent` (lines 125-165).  The internal `except`
branch (confidence 0.0) is unreachable in the embedding since every step is
total. -/
def detect_intent (ro : RegexOracle) (text : String)
    (context : Option (List (String × EntityVal))) : Intent :=
  match pickIntent (intentScores ro text) with
  | some q => { name := q.1, confidence := q.2, entities := extract_entities ro text q.1 context }
  | none => { name := "fallback_handoff", confidence := 1/10, entities := [] }

/-- A trivial matcher (no regular expression matches, no findall hits), used to
instantiate oracle-parameterised theorems on concrete inputs. -/
def oracleNone : RegexOracle := ⟨fun _ _ => false, fun _ _ => []⟩

/-- `models/schemas.py`, enum `SentimentLabel`. -/
inductive SentimentLabel where
  | positive
  | negative
  | neutral
deriving DecidableEq, Repr

/-- `models/schemas.py`, class `Sentiment`, with exact rationals for the float
fields. -/
structure Sentiment where
  label : SentimentLabel
  score : ℚ
  confidence : ℚ
deriving DecidableEq, Repr

/-- The `positive`/`negative`/`neutral` sentiment buckets (keys of the score
dicts in `sentiment_analyzer.py`, in their dict-declaration order). -/
structure SentScores where
  pos : ℚ
  neg : ℚ
  neu : ℚ
deriving DecidableEq, Repr

/-- Componentwise addition of bucket triples (the accumulation
`sentiment_matches[t] += weight` summed per token). -/
def SentScores.add (a b : SentScores) : SentScores :=
  ⟨a.pos + b.pos, a.neg + b.neg, a.neu + b.neu⟩

instance : Add SentScores := ⟨SentScores.add⟩

/-- One per-language sentiment lexicon of `SentimentAnalyzer.sentiment_lexicons`
(src/backend/services/sentiment_analyzer.py, lines 18-67). -/
structure Lexicon where
  positive : List String
  negative : List String
  neutral : List String
deriving DecidableEq, Repr

/-- `sentiment_lexicons["english"]`. -/
def englishLexicon : Lexicon :=
  { positive := ["good", "great", "excellent", "amazing", "wonderful", "fantastic", "awesome",
      "helpful", "useful", "effective", "satisfied", "happy", "pleased", "impressed",
      "outstanding", "brilliant", "superb", "marvelous", "terrific", "fabulous",
      "appreciate", "grateful", "thankful", "commend", "praise", "recommend",
      "love", "like", "enjoy", "admire", "respect", "support", "approve"],
    negative := ["bad", "terrible", "awful", "horrible", "disgusting", "pathetic", "useless",
      "disappointed", "frustrated", "angry", "upset", "annoyed", "irritated",
      "dissatisfied", "unhappy", "displeased", "concerned", "worried", "troubled",
      "hate", "dislike", "despise", "condemn", "criticize", "complain", "oppose",
      "poor", "worst", "failure", "problem", "issue", "corrupt", "incompetent"],
    neutral := ["okay", "fine", "average", "normal", "standard", "typical", "regular",
      "moderate", "fair", "reasonable", "acceptable", "adequate", "sufficient"] }

/-- `sentiment_lexicons["hindi"]`. -/
def hindiLexicon : Lexicon :=
  { positive := ["अच्छा", "बहुत अच्छा", "उत्कृष्ट", "शानदार", "बेहतरीन", "प्रभावी", "उपयोगी",
      "खुश", "संतुष्ट", "प्रसन्न", "धन्यवाद", "आभारी", "सराहना", "समर्थन",
      "पसंद", "प्रेम", "सम्मान", "तारीफ", "प्रशंसा", "बधाई", "काम का"],
    negative := ["बुरा", "गलत", "खराब", "भयानक", "निराश", "परेशान", "गुस्सा", "चिंतित",
      "असंतुष्ट", "नाखुश", "शिकायत", "समस्या", "परेशानी", "विरोध", "नापसंद",
      "घृणा", "आपत्ति", "दुखी", "कष्ट", "तकलीफ", "भ्रष्ट", "अक्षम"],
    neutral := ["ठीक", "सामान्य", "औसत", "साधारण", "मध्यम", "उचित", "स्वीकार्य"] }

/-- `sentiment_lexicons["telugu"]`. -/
def teluguLexicon : Lexicon :=
  { positive := ["మంచి", "చాలా మంచి", "అద్భుతం", "అమోఘం", "అందం", "సంతోషం", "ఆనందం",
      "కృతజ్ఞత", "ధన్యవాదాలు", "మెచ్చుకోవాలి", "మద్దతు", "ఇష్టం", "ప్రేమ"],
    negative := ["చెడు", "దారుణం", "భయంకరం", "నిరాశ", "కోపం", "దుఃఖం", "సమస్య",
      "ఇబ్బంది", "వ్యతిరేకత", "అసంతృప్తి", "ఫిర్యాదు", "ఇష్టం లేదు"],
    neutral := ["సరే", "సాధారణం", "మధ్యమం", "ఆమోదయోగ్యం", "సరిపోతుంది"] }

/-- `self.sentiment_lexicons.get(language, self.sentiment_lexicons["english"])`. -/
def getLexicon (language : String) : Lexicon :=
  if language == "english" then englishLexicon
  else if language == "hindi" then hindiLexicon
  else if language == "telugu" then teluguLexicon
  else englishLexicon

/-- `self.intensifiers.get(language, self.intensifiers["english"])` (lines 70-74). -/
def getIntensifiers (language : String) : List String :=
  if language == "english" then ["very", "extremely", "really", "quite", "absolutely", "completely", "totally"]
  else if language == "hindi" then ["बहुत", "अत्यधिक", "काफी", "पूरी तरह", "बिल्कुल", "सच में"]
  else if language == "telugu" then ["చాలా", "అత్యంత", "పూర్తిగా", "నిజంగా", "మరీ"]
  else ["very", "extremely", "really", "quite", "absolutely", "completely", "totally"]

/-- `self.negators.get(language, self.negators["english"])` (lines 76-80). -/
def getNegators (language : String) : List String :=
  if language == "english" then ["not", "no", "never", "nothing", "nobody", "nowhere", "neither", "nor"]
  else if language == "hindi" then ["नहीं", "न", "कभी नहीं", "कुछ नहीं", "कोई नहीं"]
  else if language == "telugu" then ["లేదు", "కాదు", "ఎప్పుడూ లేదు", "ఏమీ లేదు"]
  else ["not", "no", "never", "nothing", "nobody", "nowhere", "neither", "nor"]

/-- The positive entries of `self.context_patterns` (lines 83-96), flattened
across the three categories in dict iteration order; `_analyze_contextual_sentiment`
only counts matches, so the flattening is behaviour-preserving. -/
def contextPatternsPos : List String :=
  ["doing good work", "working well", "effective work", "good job",
   "good service", "helpful service", "quick response", "efficient",
   "easily accessible", "available", "reachable", "approachable"]

/-- The negative entries of `self.context_patterns`, flattened likewise. -/
def contextPatternsNeg : List String :=
  ["not working", "poor work", "ineffective", "bad job",
   "poor service", "slow response", "unhelpful", "inefficient",
   "not accessible", "unavailable", "unreachable", "difficult to reach"]

/-- `SentimentAnalyzer._analyze_contextual_sentiment` (lines 219-238). -/
def analyze_contextual_sentiment (text : String) : SentScores :=
  let p := (contextPatternsPos.filter fun pat => strContains text pat).length
  let n := (contextPatternsNeg.filter fun pat => strContains text pat).length
  let total := p + n
  if 0 < total then
    let cp : ℚ := (p : ℚ) / (total : ℚ)
    let cn : ℚ := (n : ℚ) / (total : ℚ)
    ⟨cp, cn, 1 - (cp + cn)⟩
  else ⟨0, 0, 0⟩

/-- The negation look-back of the per-word scan (lines 171-176): some one of the
up-to-3 preceding tokens (`prevRev` holds the preceding tokens, most recent
first) is a negator. -/
def isNegatedCtx (negators : List String) (prevRev : List String) : Bool :=
  (prevRev.take 3).any fun t => negators.contains t

/-- The intensifier look-back (lines 178-184): weight 1.5 when one of the
up-to-2 preceding tokens is an intensifier, else 1. -/
def intensityMult (intensifiers : List String) (prevRev : List String) : ℚ :=
  if (prevRev.take 2).any (fun t => intensifiers.contains t) then 3/2 else 1

/-- The bucket contribution of one token (lines 186-200): for each lexicon
category in dict order, a weighted count goes to that bucket, with positive and
negative swapped under negation and neutral unaffected. -/
def tokenContribution (lex : Lexicon) (negators intensifiers : List String)
    (prevRev : List String) (w : String) : SentScores :=
  let isNeg := isNegatedCtx negators prevRev
  let wt := intensityMult intensifiers prevRev
  let cPos : SentScores :=
    if w ∈ lex.positive then (if isNeg then ⟨0, wt, 0⟩ else ⟨wt, 0, 0⟩) else ⟨0, 0, 0⟩
  let cNeg : SentScores :=
    if w ∈ lex.negative then (if isNeg then ⟨wt, 0, 0⟩ else ⟨0, wt, 0⟩) else ⟨0, 0, 0⟩
  let cNeu : SentScores :=
    if w ∈ lex.neutral then ⟨0, 0, wt⟩ else ⟨0, 0, 0⟩
  cPos + cNeg + cNeu

/-- The per-word scan of `_calculate_sentiment_scores` (lines 169-200), written
as a recursion carrying the already-seen tokens reversed: the loop accumulates
each token's contribution into `sentiment_matches`. -/
def scanWords (lex : Lexicon) (negators intensifiers : List String) :
    List String → List String → SentScores
  | _, [] => ⟨0, 0, 0⟩
  | prevRev, w :: ws =>
    tokenContribution lex negators intensifiers prevRev w +
      scanWords lex negators intensifiers (w :: prevRev) ws

/-- `SentimentAnalyzer._calculate_sentiment_scores` (lines 151-217): lexical
scan, normalisation by the total matched weight, then averaging with the
contextual scores (the contextual dict always carries all three keys, so the
averaging is unconditional). -/
def calculate_sentiment_scores (text : String) (language : String) : SentScores :=
  let lex := getLexicon language
  let negators := getNegators language
  let intensifiers := getIntensifiers language
  let words := pySplit text
  if words.isEmpty then ⟨0, 0, 0⟩
  else
    let m := scanWords lex negators intensifiers [] words
    let total := m.pos + m.neg + m.neu
    let base : SentScores :=
      if 0 < total then ⟨m.pos / total, m.neg / total, m.neu / total⟩ else ⟨0, 0, 0⟩
    let ctx := analyze_contextual_sentiment text
    ⟨(base.pos + ctx.pos) / 2, (base.neg + ctx.neg) / 2, (base.neu + ctx.neu) / 2⟩

/-- `SentimentAnalyzer._preprocess_text` (lines 138-149): lowercase, collapse
whitespace runs to single spaces and strip the ends, then drop every character
other than word characters, whitespace and `. ! ? , -`. -/
def preprocess_text (text : String) : String :=
  let t := pyLower text
  let t := String.intercalate " " (pySplit t)
  String.mk (t.data.filter fun c =>
    isPyWordChar c || c.isWhitespace || c == '.' || c == '!' || c == '?' || c == ',' || c == '-')

/-- `SentimentAnalyzer._determine_sentiment` (lines 240-265): weak-signal floor
at 0.1, then label preference positive, negative, neutral on the maximum;
confidence is top minus second of the sorted scores (the second-largest of the
three values), clamped to [0, 1]. -/
def determine_sentiment (s : SentScores) : SentimentLabel × ℚ :=
  let m := max (max s.pos s.neg) s.neu
  if m < 1/10 then (SentimentLabel.neutral, m)
  else
    let label :=
      if s.pos = m then SentimentLabel.positive
      else if s.neg = m then SentimentLabel.negative
      else SentimentLabel.neutral
    let second := max (min s.pos s.neg) (min (max s.pos s.neg) s.neu)
    let conf := m - second
    (label, min (max conf 0) 1)

/-- `SentimentAnalyzer.analyze_sentiment` (lines 98-136): empty/whitespace-only
guard, preprocessing, bucket scores, final label/confidence and signed score. -/
def analyze_sentiment (text : String) (language : String) : Sentiment :=
  if text == "" || pyStrip text == "" then ⟨SentimentLabel.neutral, 0, 0⟩
  else
    let tc := preprocess_text text
    let s := calculate_sentiment_scores tc language
    let lc := determine_sentiment s
    let score : ℚ :=
      match lc.1 with
      | SentimentLabel.positive => s.pos
      | SentimentLabel.negative => -s.neg
      | SentimentLabel.neutral => 0
    ⟨lc.1, score, lc.2⟩

/-- A Python runtime value, as passed between the chat handlers, the mock data
service and the response generator.  Pydantic record objects are modelled by
their field dictionaries; a `datetime` is modelled by its `%Y-%m-%d` rendering
(`dt`). -/
inductive PyVal where
  | str (s : String)
  | int (n : Int)
  | bool (b : Bool)
  | dt (ymd : String)
  | list (xs : List PyVal)
  | dict (kvs : List (String × PyVal))
  | pynone

/-- Python truthiness of a value. -/
def pyTruthy : PyVal → Bool
  | .str s => !(s == "")
  | .int n => !(n == 0)
  | .bool b => b
  | .dt _ => true
  | .list xs => !xs.isEmpty
  | .dict kvs => !kvs.isEmpty
  | .pynone => false

/-- `None`-to-value coercion: a tier that returned `None` is stored as-is in
the result dict. -/
def optToPy : Option PyVal → PyVal
  | none => .pynone
  | some v => v

/-- The `{"type": ..., "data": ..., "source": ...}` dict a chat handler
returns (src/backend/routers/chat.py). -/
structure DSResult where
  rtype : String
  rdata : PyVal
  rsource : String

/-- Outcome of one external tier call (API or scraper) inside its
`try/except`: the call raised, or it returned a value. -/
inductive TierResult where
  | raised
  | value (v : PyVal)

/-- A tier outcome that does not produce data: it raised, or its value is
falsy (`if pincode_info:` fails). -/
def TierResult.isEmptyOutcome : TierResult → Bool
  | .raised => true
  | .value v => !pyTruthy v

/-- The validation result of `handle_pincode_help` (chat.py line 249). -/
def pincodeValidationResult : DSResult :=
  { rtype := "error",
    rdata := PyVal.dict [("message", PyVal.str "Please provide a valid 6-digit pincode")],
    rsource := "validation" }

/-- The scraping-then-mock tail of the pincode chain (chat.py lines 259-269):
a raised or falsy scrape falls through to the mock tier, whose value is
reported with source "mock" unconditionally. -/
def pincodeScrapeMock (scrape : EntityVal → TierResult)
    (mockFn : EntityVal → Option PyVal) (pv : EntityVal) : DSResult :=
  match scrape pv with
  | TierResult.value v =>
    if pyTruthy v then { rtype := "pincode_info", rdata := v, rsource := "scraping" }
    else { rtype := "pincode_info", rdata := optToPy (mockFn pv), rsource := "mock" }
  | TierResult.raised =>
    { rtype := "pincode_info", rdata := optToPy (mockFn pv), rsource := "mock" }

/-- `handle_pincode_help` (chat.py lines 237-273), parameterised by the three
tier providers: take the pincode entity if truthy, otherwise search the raw
question for `\b\d{6}\b`; fail fast with the validation result when neither
yields a truthy pincode; otherwise run API → scraping → mock. -/
def handle_pincode_help (api scrape : EntityVal → TierResult)
    (mockFn : EntityVal → Option PyVal)
    (entities : List (String × EntityVal)) (question : String) : DSResult :=
  let pc1 := entities.lookup "pincode"
  let pc2 : Option EntityVal :=
    if entityTruthy pc1 then pc1
    else
      match findSixDigit question with
      | some m => some (EntityVal.s m)
      | none => pc1
  match pc2 with
  | none => pincodeValidationResult
  | some pv =>
    if entityTruthy (some pv) then
      match api pv with
      | TierResult.value v =>
        if pyTruthy v then { rtype := "pincode_info", rdata := v, rsource := "api" }
        else pincodeScrapeMock scrape mockFn pv
      | TierResult.raised => pincodeScrapeMock scrape mockFn pv
    else pincodeValidationResult

/-- The static sample set `_generate_pincode_directory_data`
(src/backend/services/mock_data.py, lines 231-272), records as field dicts. -/
def pincodeDirectory : List (String × PyVal) := [
  ("110001", PyVal.dict [("pincode", PyVal.str "110001"),
    ("post_office", PyVal.str "Parliament Street"), ("district", PyVal.str "New Delhi"),
    ("state", PyVal.str "Delhi"), ("region", PyVal.str "Delhi"),
    ("division", PyVal.str "New Delhi"), ("circle", PyVal.str "Delhi"),
    ("villages", PyVal.list [PyVal.str "Connaught Place", PyVal.str "Janpath",
      PyVal.str "Parliament Street"])]),
  ("560001", PyVal.dict [("pincode", PyVal.str "560001"),
    ("post_office", PyVal.str "Bangalore GPO"), ("district", PyVal.str "Bangalore Urban"),
    ("state", PyVal.str "Karnataka"), ("region", PyVal.str "Bangalore"),
    ("division", PyVal.str "Bangalore"), ("circle", PyVal.str "Karnataka"),
    ("villages", PyVal.list [PyVal.str "Shivaji Nagar", PyVal.str "Bangalore Cantonment",
      PyVal.str "High Grounds"])]),
  ("400001", PyVal.dict [("pincode", PyVal.str "400001"),
    ("post_office", PyVal.str "Mumbai GPO"), ("district", PyVal.str "Mumbai"),
    ("state", PyVal.str "Maharashtra"), ("region", PyVal.str "Mumbai"),
    ("division", PyVal.str "Mumbai"), ("circle", PyVal.str "Maharashtra"),
    ("villages", PyVal.list [PyVal.str "Fort", PyVal.str "Ballard Estate",
      PyVal.str "Kala Ghoda"])])]

/-- The generic placeholder record of `get_pincode_info` (mock_data.py
lines 462-472); `villages = [f"Village {i}" for i in range(1, 4)]`. -/
def genericPincodeInfo (pincode : String) : PyVal :=
  PyVal.dict [("pincode", PyVal.str pincode),
    ("post_office", PyVal.str ("Post Office " ++ pincode)),
    ("district", PyVal.str "Unknown District"),
    ("state", PyVal.str "Unknown State"),
    ("region", PyVal.str "Unknown Region"),
    ("division", PyVal.str "Unknown Division"),
    ("circle", PyVal.str "Unknown Circle"),
    ("villages", PyVal.list [PyVal.str "Village 1", PyVal.str "Village 2", PyVal.str "Village 3"])]

/-- `MockDataService.get_pincode_info` (mock_data.py lines 456-476): the sample
record when the pincode is a directory key, the generic placeholder otherwise.
The `except` branch returning `None` is unreachable for string pincodes (no
operation in the body raises). -/
def get_pincode_info (pincode : String) : Option PyVal :=
  some (match pincodeDirectory.lookup pincode with
    | some r => r
    | none => genericPincodeInfo pincode)

/-- The mock tier as called by `handle_pincode_help`: for a string pincode it
is `get_pincode_info`; a list-valued pincode entity is unhashable, so the
membership test raises and the service's `except` returns `None`. -/
def mockPincodeTier : EntityVal → Option PyVal
  | .s p => get_pincode_info p
  | .l _ => none

/-- Raising dict access `d[k]` (`KeyError` when the key is absent). -/
def dictGetE (kvs : List (String × PyVal)) (k : String) : Except Unit PyVal :=
  match kvs.lookup k with
  | some v => Except.ok v
  | none => Except.error ()

/-- `v.get(k, d)` on a value expected to be a dict (`AttributeError` when `v`
is not a dict; `.get` itself never raises). -/
def pyGet (v : PyVal) (k : String) (d : PyVal) : Except Unit PyVal :=
  match v with
  | .dict kvs => Except.ok ((kvs.lookup k).getD d)
  | _ => Except.error ()

/-- `v[k]` on a value expected to be a dict (raises on a non-dict and on a
missing key). -/
def pyIndexE (v : PyVal) (k : String) : Except Unit PyVal :=
  match v with
  | .dict kvs => dictGetE kvs k
  | _ => Except.error ()

/-- A value required to be a string (as by `str.join`, which raises `TypeError`
otherwise). -/
def getStrE : PyVal → Except Unit String
  | .str s => Except.ok s
  | _ => Except.error ()

/-- Python `str(v)` as used by `str.format` / f-strings.  Containers render in
Python as their reprs; the abbreviated placeholders here are never exercised by
the theorems below. -/
def pyStr : PyVal → String
  | .str s => s
  | .int n => toString n
  | .bool b => if b then "True" else "False"
  | .dt s => s
  | .list _ => "[...]"
  | .dict _ => "\x7b...\x7d"
  | .pynone => "None"

/-- `.strftime("%Y-%m-%d")`: only a datetime value supports it
(`AttributeError` otherwise, e.g. on a string date). -/
def strftimeE : PyVal → Except Unit String
  | .dt s => Except.ok s
  | _ => Except.error ()

/-- Python `v == s` for a string literal `s`. -/
def isStr (v : PyVal) (s : String) : Bool :=
  match v with
  | .str t => t == s
  | _ => false

/-- `random.choice(xs)` with the draw supplied as a modulus index (raises
`IndexError` on an empty list). -/
def choiceE (rnd : Nat) : List α → Except Unit α
  | [] => Except.error ()
  | x :: xs => Except.ok ((x :: xs).getD (rnd % (xs.length + 1)) x)

/-- `templates[key]` on an optional key (`KeyError` when the language's
template dict lacks the key). -/
def optKeyE : Option α → Except Unit α
  | none => Except.error ()
  | some a => Except.ok a

/-- `v[0]`: first element of a list (or first character of a string);
raises on an empty list and on unindexable values. -/
def pyIndex0 : PyVal → Except Unit PyVal
  | .list (x :: _) => Except.ok x
  | .str s =>
    match s.data with
    | c :: _ => Except.ok (.str c.toString)
    | [] => Except.error ()
  | _ => Except.error ()

/-- `", ".join(v[:n])` as used on scheme record fields: a list must contain
strings, a string is sliced into characters, anything else is unsliceable. -/
def sliceJoin (v : PyVal) (n : Nat) : Except Unit String :=
  match v with
  | .list xs => do
    let ss ← (xs.take n).mapM getStrE
    Except.ok (String.intercalate ", " ss)
  | .str s => Except.ok (String.intercalate ", " ((s.data.take n).map Char.toString))
  | _ => Except.error ()

/-- The dict `generate_response` returns
(src/backend/services/response_generator.py): message, the source tag (a raw
Python value copied from `data["source"]` or a literal), suggestions and
metadata. -/
structure ResponseData where
  message : String
  source : PyVal
  suggestions : List String
  metadata : List (String × PyVal)

/-- One language's entry of `ResponseGenerator.response_templates`
(response_generator.py lines 18-92).  Each template string is embedded as the
function filling its `{...}` placeholders; keys missing from a language's dict
are `none`. -/
structure LangTemplates where
  mla_info : List (String → String → String → String → String)
  mp_info : List (String → String → String → String)
  scheme_info : List (String → String → String → String → String → String → String)
  health_facilities : List (String → String → String → String)
  commodity_prices : List (String → String → String → String)
  pincode_info : Option (List (String → String → String → String → String → String))
  general_faq : Option (List (String → String → String))
  fallback : List String

/-- `response_templates["english"]` (field order of each template:
mla_info name constituency contact address; mp_info name constituency contact;
scheme_info scheme_name description benefits eligibility documents process;
health_facilities count facilities nearest; commodity_prices commodity prices
date; pincode_info pincode district state post_office region; general_faq
answer website). -/
def englishTemplates : LangTemplates :=
  { mla_info := [
      fun name constituency contact _address =>
        "Your MLA is " ++ name ++ " from " ++ constituency ++ ". You can contact them at " ++ contact ++ ".",
      fun name _constituency _contact address =>
        "The Member of Legislative Assembly for your area is " ++ name ++ ". Their office is located at " ++ address ++ ".",
      fun name constituency contact _address =>
        "Your local MLA " ++ name ++ " represents " ++ constituency ++ " constituency. Contact: " ++ contact],
    mp_info := [
      fun name constituency contact =>
        "Your Member of Parliament is " ++ name ++ " from " ++ constituency ++ ". Contact: " ++ contact,
      fun name _constituency contact =>
        "The MP for your area is " ++ name ++ ". You can reach them at " ++ contact ++ ".",
      fun name constituency _contact =>
        "Your parliamentary representative is " ++ name ++ " from " ++ constituency ++ " constituency."],
    scheme_info := [
      fun sn _de be _el _do pr =>
        "The " ++ sn ++ " provides the following benefits: " ++ be ++ ". To apply, " ++ pr,
      fun sn de _be el _do _pr =>
        "Here\x27s information about " ++ sn ++ ": " ++ de ++ ". Eligibility: " ++ el,
      fun sn _de be _el dt _pr =>
        sn ++ " offers " ++ be ++ ". Required documents: " ++ dt],
    health_facilities := [
      fun count facilities _nearest =>
        "I found " ++ count ++ " health facilities near you: " ++ facilities,
      fun _count facilities nearest =>
        "Here are nearby health centers: " ++ facilities ++ ". The closest is " ++ nearest,
      fun _count facilities _nearest =>
        "Available health facilities in your area: " ++ facilities],
    commodity_prices := [
      fun commodity prices date =>
        "Current " ++ commodity ++ " prices: " ++ prices ++ ". Latest update: " ++ date,
      fun commodity prices _date =>
        "Today\x27s " ++ commodity ++ " rates in nearby markets: " ++ prices,
      fun commodity prices _date =>
        "Market prices for " ++ commodity ++ ": " ++ prices],
    pincode_info := some [
      fun pincode district state post_office _region =>
        "Pincode " ++ pincode ++ " belongs to " ++ district ++ " district, " ++ state ++ ". Post office: " ++ post_office,
      fun pincode district state _post_office _region =>
        "Information for " ++ pincode ++ ": District - " ++ district ++ ", State - " ++ state,
      fun pincode district state _post_office region =>
        pincode ++ " is located in " ++ district ++ ", " ++ state ++ ". Region: " ++ region],
    general_faq := some [
      fun answer _website => "Here\x27s the information you requested: " ++ answer,
      fun answer _website => "Based on your question: " ++ answer,
      fun answer website => answer ++ ". For more details, visit " ++ website],
    fallback := [
      "I\x27m sorry, I couldn\x27t find specific information. Please contact local authorities.",
      "For this query, I recommend visiting your nearest government office.",
      "I apologize, but I need more information to help you better."] }

/-- `response_templates["hindi"]` — it has no `pincode_info` and no
`general_faq` key. -/
def hindiTemplates : LangTemplates :=
  { mla_info := [
      fun name constituency contact _address =>
        "आपके विधायक " ++ name ++ " हैं " ++ constituency ++ " से। संपर्क: " ++ contact,
      fun name _constituency _contact address =>
        "आपके क्षेत्र के विधायक " ++ name ++ " हैं। उनका कार्यालय " ++ address ++ " में है।",
      fun name constituency _contact _address =>
        "आपके स्थानीय विधायक " ++ name ++ " " ++ constituency ++ " का प्रतिनिधित्व करते हैं।"],
    mp_info := [
      fun name constituency contact =>
        "आपके सांसद " ++ name ++ " हैं " ++ constituency ++ " से। संपर्क: " ++ contact,
      fun name _constituency contact =>
        "आपके क्षेत्र के सांसद " ++ name ++ " हैं। संपर्क: " ++ contact,
      fun name constituency _contact =>
        "आपके संसदीय प्रतिनिधि " ++ name ++ " " ++ constituency ++ " से हैं।"],
    scheme_info := [
      fun sn _de be _el _do pr =>
        sn ++ " के लाभ: " ++ be ++ "। आवेदन प्रक्रिया: " ++ pr,
      fun sn de _be el _do _pr =>
        sn ++ " की जानकारी: " ++ de ++ "। पात्रता: " ++ el,
      fun sn _de be _el dt _pr =>
        sn ++ " प्रदान करता है: " ++ be ++ "। आवश्यक दस्तावेज: " ++ dt],
    health_facilities := [
      fun count facilities _nearest =>
        "आपके पास " ++ count ++ " स्वास्थ्य सुविधाएं मिलीं: " ++ facilities,
      fun _count facilities nearest =>
        "निकटतम स्वास्थ्य केंद्र: " ++ facilities ++ "। सबसे पास: " ++ nearest,
      fun _count facilities _nearest =>
        "आपके क्षेत्र में उपलब्ध स्वास्थ्य सुविधाएं: " ++ facilities],
    commodity_prices := [
      fun commodity prices date =>
        "वर्तमान " ++ commodity ++ " की कीमतें: " ++ prices ++ "। अपडेट: " ++ date,
      fun commodity prices _date =>
        "आज की " ++ commodity ++ " दरें: " ++ prices,
      fun commodity prices _date =>
        commodity ++ " के बाजार भाव: " ++ prices],
    pincode_info := none,
    general_faq := none,
    fallback := [
      "खुशी, मुझे विशिष्ट जानकारी नहीं मिली। कृपया स्थानीय अधिकारियों से संपर्क करें।",
      "इस प्रश्न के लिए, मैं निकटतम सरकारी कार्यालय जाने की सलाह देता हूं।"] }

/-- `self.response_templates.get(language, self.response_templates["english"])`:
the dict has exactly the keys "english" and "hindi". -/
def templatesFor (lang : String) : LangTemplates :=
  if lang == "hindi" then hindiTemplates else englishTemplates

/-- One language's entry of `ResponseGenerator.suggestion_templates`
(lines 95-107); the hindi dict lacks `after_health_info`. -/
structure SuggTemplates where
  after_mla_info : List String
  after_scheme_info : List String
  after_health_info : Option (List String)
  general : List String

/-- `suggestion_templates["english"]`. -/
def englishSuggestions : SuggTemplates :=
  { after_mla_info := ["Ask about your MP", "Get scheme information", "Find health facilities"],
    after_scheme_info := ["Check eligibility", "Find application centers", "Get required documents"],
    after_health_info := some ["Get directions", "Check services available", "Find contact numbers"],
    general := ["Ask about government schemes", "Find your representatives", "Check commodity prices"] }

/-- `suggestion_templates["hindi"]`. -/
def hindiSuggestions : SuggTemplates :=
  { after_mla_info := ["अपने सांसद के बारे में पूछें", "योजना की जानकारी लें", "स्वास्थ्य सुविधाएं खोजें"],
    after_scheme_info := ["पात्रता जांचें", "आवेदन केंद्र खोजें", "आवश्यक दस्तावेज देखें"],
    after_health_info := none,
    general := ["सरकारी योजनाओं के बारे में पूछें", "अपने प्रतिनिधि खोजें", "कमोडिटी की कीमतें देखें"] }

/-- `self.suggestion_templates.get(language, ...["english"])`. -/
def suggestionsFor (lang : String) : SuggTemplates :=
  if lang == "hindi" then hindiSuggestions else englishSuggestions

/-- `_generate_error_response` (lines 485-497): the generic localized error
message, `source = "error"`. -/
def errorResponse (lang : String) : ResponseData :=
  { message :=
      if lang == "hindi" then
        "मुझे तकनीकी समस्या हो रही है। कृपया बाद में पुनः प्रयास करें या स्थानीय अधिकारियों से संपर्क करें।"
      else
        "I\x27m experiencing technical difficulties. Please try again later or contact local authorities.",
    source := PyVal.str "error",
    suggestions := ["Try again later", "Contact local office"],
    metadata := [("error", PyVal.bool true)] }

/-- `_get_mock_disclaimer` (lines 499-506). -/
def mockDisclaimer (lang : String) : String :=
  if lang == "hindi" then
    "नोट: यह जानकारी प्रदर्शन उद्देश्यों के लिए हमारे नमूना डेटाबेस से है। आधिकारिक जानकारी के लिए, कृपया संबंधित अधिकारियों से संपर्क करें।"
  else
    "Note: This information is from our sample database for demonstration purposes. For official information, please contact relevant authorities."

/-- The no-data branch of `_generate_mla_response` (lines 172-182). -/
def mlaFallbackResp (lang : String) : ResponseData :=
  { message :=
      if lang == "hindi" then "मुझे आपके विधायक की जानकारी नहीं मिली। कृपया अपना निर्वाचन क्षेत्र या जिला बताएं।"
      else "I couldn\x27t find information about your MLA. Please provide your constituency or district.",
    source := PyVal.str "fallback",
    suggestions := ["Provide your pincode", "Tell me your district"],
    metadata := [] }

/-- Body of `_generate_mla_response` (lines 148-186) before its `except`. -/
def mlaCore (rnd : Nat) (data : List (String × PyVal)) (lang : String) :
    Except Unit ResponseData := do
  let templates := templatesFor lang
  let tval ← dictGetE data "type"
  if isStr tval "mla_info" then
    let dval ← dictGetE data "data"
    if pyTruthy dval then
      let template ← choiceE rnd templates.mla_info
      let nameV ← pyGet dval "name" (PyVal.str "Unknown")
      let consV ← pyGet dval "constituency" (PyVal.str "Unknown")
      let ciV ← pyGet dval "contact_info" (PyVal.dict [])
      let contactV ← pyGet ciV "phone" (PyVal.str "Not available")
      let addrV ← pyGet dval "office_address" (PyVal.str "Not available")
      let message := template (pyStr nameV) (pyStr consV) (pyStr contactV) (pyStr addrV)
      let srcV ← dictGetE data "source"
      let consMeta ← pyGet dval "constituency" PyVal.pynone
      Except.ok {
        message := message,
        source := srcV,
        suggestions := (suggestionsFor lang).after_mla_info,
        metadata := [("representative_type", PyVal.str "MLA"), ("constituency", consMeta)] }
    else Except.ok (mlaFallbackResp lang)
  else Except.ok (mlaFallbackResp lang)

/-- The no-data branch of `_generate_mp_response` (lines 211-221). -/
def mpFallbackResp (lang : String) : ResponseData :=
  { message :=
      if lang == "hindi" then "मुझे आपके सांसद की जानकारी नहीं मिली। कृपया अपना निर्वाचन क्षेत्र बताएं।"
      else "I couldn\x27t find information about your MP. Please provide your constituency.",
    source := PyVal.str "fallback",
    suggestions := ["Provide your pincode", "Tell me your constituency"],
    metadata := [] }

/-- Body of `_generate_mp_response` (lines 188-225). -/
def mpCore (rnd : Nat) (data : List (String × PyVal)) (lang : String) :
    Except Unit ResponseData := do
  let templates := templatesFor lang
  let tval ← dictGetE data "type"
  if isStr tval "mp_info" then
    let dval ← dictGetE data "data"
    if pyTruthy dval then
      let template ← choiceE rnd templates.mp_info
      let nameV ← pyGet dval "name" (PyVal.str "Unknown")
      let consV ← pyGet dval "constituency" (PyVal.str "Unknown")
      let ciV ← pyGet dval "contact_info" (PyVal.dict [])
      let contactV ← pyGet ciV "phone" (PyVal.str "Not available")
      let message := template (pyStr nameV) (pyStr consV) (pyStr contactV)
      let srcV ← dictGetE data "source"
      let consMeta ← pyGet dval "constituency" PyVal.pynone
      Except.ok {
        message := message,
        source := srcV,
        suggestions := (suggestionsFor lang).after_mla_info,
        metadata := [("representative_type", PyVal.str "MP"), ("constituency", consMeta)] }
    else Except.ok (mpFallbackResp lang)
  else Except.ok (mpFallbackResp lang)

/-- The no-data branch of `_generate_scheme_response` (lines 261-271). -/
def schemeFallbackResp (lang : String) : ResponseData :=
  { message :=
      if lang == "hindi" then "मुझे विशिष्ट योजना की जानकारी नहीं मिली। कृपया योजना का नाम बताएं।"
      else "I couldn\x27t find specific scheme information. Please specify the scheme name.",
    source := PyVal.str "fallback",
    suggestions := ["Ask about PMAY", "Ask about Jan Aushadhi", "Ask about Ayushman Bharat"],
    metadata := [] }

/-- Body of `_generate_scheme_response` (lines 227-275). -/
def schemeCore (rnd : Nat) (data : List (String × PyVal)) (lang : String) :
    Except Unit ResponseData := do
  let templates := templatesFor lang
  let tval ← dictGetE data "type"
  if isStr tval "scheme_info" then
    let dval ← dictGetE data "data"
    if pyTruthy dval then
      let template ← choiceE rnd templates.scheme_info
      let benefitsV ← pyGet dval "benefits" (PyVal.list [])
      let benefits ← sliceJoin benefitsV 3
      let eligibilityV ← pyGet dval "eligibility" (PyVal.list [])
      let eligibility ← sliceJoin eligibilityV 2
      let documentsV ← pyGet dval "required_documents" (PyVal.list [])
      let documents ← sliceJoin documentsV 3
      let schemeNameV ← pyGet dval "scheme_name" (PyVal.str "Government Scheme")
      let descV ← pyGet dval "description" (PyVal.str "")
      let apCond ← pyGet dval "application_process" PyVal.pynone
      let processV ←
        if pyTruthy apCond then do
          let ap ← pyGet dval "application_process" (PyVal.list [PyVal.dict []])
          pyIndex0 ap
        else Except.ok (PyVal.str "Visit local office")
      let message := template (pyStr schemeNameV) (pyStr descV) benefits eligibility documents
        (pyStr processV)
      let srcV ← dictGetE data "source"
      let m1 ← pyGet dval "scheme_name" PyVal.pynone
      let m2 ← pyGet dval "official_website" PyVal.pynone
      let m3 ← pyGet dval "helpline" PyVal.pynone
      Except.ok {
        message := message,
        source := srcV,
        suggestions := (suggestionsFor lang).after_scheme_info,
        metadata := [("scheme_name", m1), ("official_website", m2), ("helpline", m3)] }
    else Except.ok (schemeFallbackResp lang)
  else Except.ok (schemeFallbackResp lang)

/-- The no-facilities branch of `_generate_health_response` (lines 316-325). -/
def healthFallbackResp (lang : String) : ResponseData :=
  { message :=
      if lang == "hindi" then "मुझे आपके क्षेत्र में स्वास्थ्य सुविधाएं नहीं मिलीं। आपातकाल के लिए 108 पर कॉल करें।"
      else "I couldn\x27t find health facilities in your area. For emergencies, call 108.",
    source := PyVal.str "fallback",
    suggestions := ["Provide your pincode", "Ask for district hospital"],
    metadata := [("emergency_number", PyVal.str "108")] }

/-- Body of `_generate_health_response` (lines 277-329); reaching the fallback
both on a type/data mismatch and on a non-list or empty facility list. -/
def healthCore (rnd : Nat) (data : List (String × PyVal)) (lang : String) :
    Except Unit ResponseData := do
  let templates := templatesFor lang
  let tval ← dictGetE data "type"
  if isStr tval "phc_info" then
    let dval ← dictGetE data "data"
    if pyTruthy dval then
      match dval with
      | PyVal.list (f0 :: fs) => do
        let nameVs ← ((f0 :: fs).take 3).mapM fun f => pyIndexE f "name"
        let names ← nameVs.mapM getStrE
        let facilitiesText := String.intercalate ", " names
        let nearestV ← pyIndexE f0 "name"
        let template ← choiceE rnd templates.health_facilities
        let count := (f0 :: fs).length
        let message := template (toString count) facilitiesText (pyStr nearestV)
        let phoneV ← pyGet f0 "phone" PyVal.pynone
        let message :=
          if pyTruthy phoneV then
            message ++ (if lang == "hindi" then "\nनिकटतम सुविधा संपर्क: " ++ pyStr phoneV
              else "\nNearest facility contact: " ++ pyStr phoneV)
          else message
        let srcV ← dictGetE data "source"
        let nearestMeta ← pyIndexE f0 "name"
        Except.ok {
          message := message,
          source := srcV,
          suggestions := ((suggestionsFor lang).after_health_info).getD [],
          metadata := [("facilities_count", PyVal.int (count : Int)),
            ("nearest_facility", nearestMeta), ("emergency_number", PyVal.str "108")] }
      | _ => Except.ok (healthFallbackResp lang)
    else Except.ok (healthFallbackResp lang)
  else Except.ok (healthFallbackResp lang)

/-- The no-prices branch of `_generate_price_response` (lines 369-378). -/
def priceFallbackResp (lang : String) : ResponseData :=
  { message :=
      if lang == "hindi" then "मुझे वर्तमान कमोडिटी की कीमतें नहीं मिलीं। कृपया बाद में पुनः प्रयास करें।"
      else "I couldn\x27t find current commodity prices. Please try again later.",
    source := PyVal.str "fallback",
    suggestions := ["Specify commodity name", "Provide your location"],
    metadata := [] }

/-- Body of `_generate_price_response` (lines 331-382); `today` is the
`%Y-%m-%d` rendering of `datetime.now()` used when a price record has no
`date` field. -/
def priceCore (rnd : Nat) (today : String) (data : List (String × PyVal)) (lang : String) :
    Except Unit ResponseData := do
  let templates := templatesFor lang
  let tval ← dictGetE data "type"
  if isStr tval "price_info" then
    let dval ← dictGetE data "data"
    if pyTruthy dval then
      match dval with
      | PyVal.list (p0 :: ps) => do
        let commodityV ← pyGet p0 "commodity" (PyVal.str "commodity")
        let priceLines ← ((p0 :: ps).take 3).mapM fun p => do
          let mV ← pyGet p "market_name" (PyVal.str "Unknown Market")
          let rV ← pyGet p "price_per_unit" (PyVal.int 0)
          let uV ← pyGet p "unit" (PyVal.str "kg")
          Except.ok (pyStr mV ++ ": ₹" ++ pyStr rV ++ "/" ++ pyStr uV)
        let pricesFormatted := String.intercalate ", " priceLines
        let dateV ← pyGet p0 "date" (PyVal.dt today)
        let dateS ← strftimeE dateV
        let template ← choiceE rnd templates.commodity_prices
        let message := template (pyStr commodityV) pricesFormatted dateS
        let srcV ← dictGetE data "source"
        Except.ok {
          message := message,
          source := srcV,
          suggestions := ["Check other commodities", "Find nearest mandi", "Get price trends"],
          metadata := [("commodity", commodityV),
            ("price_count", PyVal.int ((p0 :: ps).length : Int)),
            ("last_updated", PyVal.str dateS)] }
      | _ => Except.ok (priceFallbackResp lang)
    else Except.ok (priceFallbackResp lang)
  else Except.ok (priceFallbackResp lang)

/-- The no-data branch of `_generate_pincode_response` (lines 412-421). -/
def pincodeFallbackResp (lang : String) : ResponseData :=
  { message :=
      if lang == "hindi" then "मुझे इस पिन कोड की जानकारी नहीं मिली। कृपया जांचें और पुनः प्रयास करें।"
      else "I couldn\x27t find information for this pincode. Please check and try again.",
    source := PyVal.str "fallback",
    suggestions := ["Verify pincode", "Try with district name"],
    metadata := [] }

/-- Body of `_generate_pincode_response` (lines 384-425); note the hindi
template dict has no `pincode_info` key, so that access raises. -/
def pincodeCore (rnd : Nat) (data : List (String × PyVal)) (lang : String) :
    Except Unit ResponseData := do
  let templates := templatesFor lang
  let tval ← dictGetE data "type"
  if isStr tval "pincode_info" then
    let dval ← dictGetE data "data"
    if pyTruthy dval then
      let tlist ← optKeyE templates.pincode_info
      let template ← choiceE rnd tlist
      let pV ← pyGet dval "pincode" (PyVal.str "")
      let dV ← pyGet dval "district" (PyVal.str "Unknown")
      let sV ← pyGet dval "state" (PyVal.str "Unknown")
      let poV ← pyGet dval "post_office" (PyVal.str "Unknown")
      let rV ← pyGet dval "region" (PyVal.str "Unknown")
      let message := template (pyStr pV) (pyStr dV) (pyStr sV) (pyStr poV) (pyStr rV)
      let srcV ← dictGetE data "source"
      let m1 ← pyGet dval "pincode" PyVal.pynone
      let m2 ← pyGet dval "district" PyVal.pynone
      let m3 ← pyGet dval "state" PyVal.pynone
      Except.ok {
        message := message,
        source := srcV,
        suggestions := ["Find health facilities here", "Check local representatives",
          "Get scheme information"],
        metadata := [("pincode", m1), ("district", m2), ("state", m3)] }
    else Except.ok (pincodeFallbackResp lang)
  else Except.ok (pincodeFallbackResp lang)

/-- The no-data branch of `_generate_faq_response` (lines 451-460). -/
def faqFallbackResp (lang : String) : ResponseData :=
  { message :=
      if lang == "hindi" then "मैं आपका प्रश्न समझता हूं लेकिन आपकी बेहतर सहायता के लिए अधिक विशिष्ट जानकारी चाहिए।"
      else "I understand your question but need more specific information to help you better.",
    source := PyVal.str "fallback",
    suggestions := ["Ask about specific schemes", "Provide more details", "Contact local office"],
    metadata := [] }

/-- Body of `_generate_faq_response` (lines 427-464); the hindi template dict
has no `general_faq` key. -/
def faqCore (rnd : Nat) (data : List (String × PyVal)) (lang : String) :
    Except Unit ResponseData := do
  let templates := templatesFor lang
  let tval ← dictGetE data "type"
  if isStr tval "faq" then
    let dval ← dictGetE data "data"
    if pyTruthy dval then
      let tlist ← optKeyE templates.general_faq
      let template ← choiceE rnd tlist
      let ansV ← pyGet dval "answer" (PyVal.str "")
      let message := template (pyStr ansV) "india.gov.in"
      let srcV ← dictGetE data "source"
      let c1 ← pyGet dval "category" (PyVal.str "general")
      let c2 ← pyGet dval "source" (PyVal.str "knowledge_base")
      Except.ok {
        message := message,
        source := srcV,
        suggestions := (suggestionsFor lang).general,
        metadata := [("category", c1), ("source", c2)] }
    else Except.ok (faqFallbackResp lang)
  else Except.ok (faqFallbackResp lang)

/-- Body of `_generate_fallback_response` (lines 466-483); both language
dicts carry a `fallback` key, so the `.get` default list is unused. -/
def fallbackCore (rnd : Nat) (lang : String) : Except Unit ResponseData := do
  let m ← choiceE rnd (templatesFor lang).fallback
  Except.ok {
    message := m,
    source := PyVal.str "fallback",
    suggestions := (suggestionsFor lang).general,
    metadata := [("fallback_reason", PyVal.str "intent_not_handled")] }

/-- The intent dispatch of `generate_response` (lines 119-135), with each
per-intent body uncaught. -/
def formatterCore (rnd : Nat) (today : String) (intentName : String)
    (data : List (String × PyVal)) (lang : String) : Except Unit ResponseData :=
  if intentName == "survey_mla_name" || intentName == "opinion_mla" then mlaCore rnd data lang
  else if intentName == "survey_mp_name" || intentName == "opinion_mp" then mpCore rnd data lang
  else if intentName == "ask_scheme_info" then schemeCore rnd data lang
  else if intentName == "ask_phc_location" then healthCore rnd data lang
  else if intentName == "ask_commodity_price" then priceCore rnd today data lang
  else if intentName == "ask_pincode_help" then pincodeCore rnd data lang
  else if intentName == "general_faq" then faqCore rnd data lang
  else fallbackCore rnd lang

/-- The dispatched formatter with exception conversion: each formatter's own
`except` and the outer `except` of `generate_response` both turn a raise into
`_generate_error_response(language)`, so one conversion around the core is
behaviourally identical. -/
def dispatchResponse (rnd : Nat) (today : String) (intentName : String)
    (data : List (String × PyVal)) (lang : String) : ResponseData :=
  match formatterCore rnd today intentName data lang with
  | Except.ok r => r
  | Except.error _ => errorResponse lang

/-- `ResponseGenerator.generate_response` (lines 109-146): dispatch on the
intent name, then append the localized mock disclaimer when the formatter's
result carries `source == "mock"`. -/
def generate_response (rnd : Nat) (today : String) (intentName : String)
    (data : List (String × PyVal)) (lang : String) : ResponseData :=
  let r := dispatchResponse rnd today intentName data lang
  if isStr r.source "mock" then
    { r with message := r.message ++ "\n\n" ++ mockDisclaimer lang }
  else r

-- ===================================================================== THEOREMS

/-- `pickIntent` returns nothing exactly when no score is positive. -/
theorem pickIntent_eq_none (l : List (String × ℚ)) :
    pickIntent l = none ↔ ∀ p ∈ l, p.2 ≤ 0 := by
  induction l with
  | nil => simp [pickIntent]
  | cons p ps ih =>
    simp only [pickIntent]
    cases hr : pickIntent ps with
    | none =>
      have hall : ∀ r ∈ ps, r.2 ≤ 0 := ih.mp hr
      constructor
      · intro h r hrm
        by_cases hp : 0 < p.2
        · simp [hp] at h
        · rcases List.mem_cons.mp hrm with hrm | hrm
          · subst hrm; exact le_of_not_lt hp
          · exact hall r hrm
      · intro h
        have hp : ¬ 0 < p.2 := not_lt_of_le (h p (List.mem_cons_self p ps))
        simp [hp]
    | some q =>
      constructor
      · intro h
        by_cases hp : 0 < p.2 <;> simp [hp] at h
        split at h <;> simp_all
      · intro h
        exfalso
        have hq := ih.mpr fun r hrm => h r (List.mem_cons_of_mem p hrm)
        rw [hr] at hq
        simp at hq

/-- `pickIntent` returns the first entry attaining the maximum, and only
positive scores participate: the list splits as `l₁ ++ q :: l₂` with every
entry of `l₁` strictly below `q` and every entry of `l` at most `q`. -/
theorem pickIntent_spec (l : List (String × ℚ)) (q : String × ℚ)
    (h : pickIntent l = some q) :
    ∃ l₁ l₂, l = l₁ ++ q :: l₂ ∧ 0 < q.2 ∧
      (∀ p ∈ l₁, p.2 < q.2) ∧ (∀ p ∈ l, p.2 ≤ q.2) := by
  induction l generalizing q with
  | nil => simp [pickIntent] at h
  | cons p ps ih =>
    simp only [pickIntent] at h
    cases hr : pickIntent ps with
    | none =>
      rw [hr] at h
      have hall : ∀ r ∈ ps, r.2 ≤ 0 := (pickIntent_eq_none ps).mp hr
      by_cases hp : 0 < p.2
      · simp [hp] at h
        subst h
        refine ⟨[], ps, rfl, hp, by simp, ?_⟩
        intro r hrm
        rcases List.mem_cons.mp hrm with hrm | hrm
        · subst hrm; exact le_refl _
        · exact le_trans (hall r hrm) (le_of_lt hp)
      · simp [hp] at h
    | some q' =>
      rw [hr] at h
      obtain ⟨l₁, l₂, hsplit, hpos, hlt, hle⟩ := ih q' hr
      by_cases hp : 0 < p.2
      · by_cases hcmp : p.2 < q'.2
        · simp [hp, hcmp] at h
          subst h
          refine ⟨p :: l₁, l₂, by simp [hsplit], hpos, ?_, ?_⟩
          · intro r hrm
            rcases List.mem_cons.mp hrm with hrm | hrm
            · subst hrm; exact hcmp
            · exact hlt r hrm
          · intro r hrm
            rcases List.mem_cons.mp hrm with hrm | hrm
            · subst hrm; exact le_of_lt hcmp
            · exact hle r hrm
        · simp [hp, hcmp] at h
          subst h
          refine ⟨[], ps, rfl, hp, by simp, ?_⟩
          intro r hrm
          rcases List.mem_cons.mp hrm with hrm | hrm
          · subst hrm; exact le_refl _
          · exact le_trans (hle r hrm) (le_of_not_lt hcmp)
      · simp [hp] at h
        subst h
        refine ⟨p :: l₁, l₂, by simp [hsplit], hpos, ?_, ?_⟩
        · intro r hrm
          rcases List.mem_cons.mp hrm with hrm | hrm
          · subst hrm; exact lt_of_le_of_lt (le_of_not_lt hp) hpos
          · exact hlt r hrm
        · intro r hrm
          rcases List.mem_cons.mp hrm with hrm | hrm
          · subst hrm; exact le_trans (le_of_not_lt hp) (le_of_lt hpos)
          · exact hle r hrm

/-- The code's guarded scoring equals the spec's formula. -/
theorem calculate_intent_score_eq_spec (ro : RegexOracle) (text : String) (d : IntentDef) :
    calculate_intent_score ro text d = specIntentScore ro text d := by
  unfold calculate_intent_score specIntentScore
  set km := (d.keywords.filter fun k => strContains text (pyLower k)).length with hkm
  set pm := (d.patterns.filter fun p => ro.search p text).length with hpm
  by_cases h1 : 0 < km <;> by_cases h2 : 0 < pm <;>
    simp only [h1, h2, if_true, if_false, ite_true, ite_false]
  · ring_nf
  · have : pm = 0 := by omega
    simp [this]; ring_nf
  · have : km = 0 := by omega
    simp [this]; ring_nf
  · have hk : km = 0 := by omega
    have hp : pm = 0 := by omega
    simp [hk, hp]

/-- C3: for every input text (and matcher), `detect_intent` scores each intent
definition by the spec formula `0.6 × keyword fraction + 0.4 × pattern
fraction`, capped at 1, and returns the intent whose score is strictly highest
among the positive scores, with that score as the confidence; on ties the first
definition in declaration order wins (the score list splits as
`l₁ ++ winner :: l₂` with everything in `l₁` strictly below the winner and
everything at most the winner). -/
theorem detect_intent_scoring (ro : RegexOracle) (text : String)
    (h : ∃ p ∈ intentScores ro text, 0 < p.2) :
    ∃ l₁ l₂ nm sc, intentScores ro text = l₁ ++ (nm, sc) :: l₂ ∧
      (detect_intent ro text none).name = nm ∧
      (detect_intent ro text none).confidence = sc ∧
      0 < sc ∧ (∀ p ∈ l₁, p.2 < sc) ∧ (∀ p ∈ intentScores ro text, p.2 ≤ sc) ∧
      (∀ d ∈ intentDefs,
        calculate_intent_score ro (pyLower text) d = specIntentScore ro (pyLower text) d) := by
  cases hq : pickIntent (intentScores ro text) with
  | none =>
    obtain ⟨p, hm, hp⟩ := h
    exact absurd ((pickIntent_eq_none _).mp hq p hm) (not_le_of_lt hp)
  | some q =>
    obtain ⟨l₁, l₂, hsplit, hpos, hlt, hle⟩ := pickIntent_spec _ q hq
    refine ⟨l₁, l₂, q.1, q.2, ?_, ?_, ?_, hpos, hlt, hle,
      fun d _ => calculate_intent_score_eq_spec ro (pyLower text) d⟩
    · simpa using hsplit
    · unfold detect_intent
      rw [hq]
    · unfold detect_intent
      rw [hq]

/-- Witness for C3 on the text "mla" with a matcher that matches no pattern:
the keyword "mla" of the first definition gives it a positive score, so the
characterisation applies. -/
theorem detect_intent_scoring_witness :
    ∃ l₁ l₂ nm sc, intentScores oracleNone "mla" = l₁ ++ (nm, sc) :: l₂ ∧
      (detect_intent oracleNone "mla" none).name = nm ∧
      (detect_intent oracleNone "mla" none).confidence = sc ∧
      0 < sc ∧ (∀ p ∈ l₁, p.2 < sc) ∧ (∀ p ∈ intentScores oracleNone "mla", p.2 ≤ sc) ∧
      (∀ d ∈ intentDefs,
        calculate_intent_score oracleNone (pyLower "mla") d =
          specIntentScore oracleNone (pyLower "mla") d) :=
  detect_intent_scoring oracleNone "mla" (by with_unfolding_all decide)

/-- C4: if no intent definition's keyword occurs in the lowercased text and no
pattern matches, every score is 0 and `detect_intent` returns the intent
`fallback_handoff` with confidence 0.1 (hence ≤ 0.1) and empty entities. -/
theorem detect_intent_fallback (ro : RegexOracle) (text : String)
    (h : ∀ d ∈ intentDefs,
      (d.keywords.filter fun k => strContains (pyLower text) (pyLower k)) = [] ∧
      (d.patterns.filter fun p => ro.search p (pyLower text)) = []) :
    detect_intent ro text none =
      { name := "fallback_handoff", confidence := 1/10, entities := [] } ∧
    (detect_intent ro text none).confidence ≤ 1/10 := by
  have hz : ∀ p ∈ intentScores ro text, p.2 ≤ 0 := by
    intro p hp
    simp only [intentScores, List.mem_map] at hp
    obtain ⟨d, hd, rfl⟩ := hp
    obtain ⟨h1, h2⟩ := h d hd
    simp only [calculate_intent_score, h1, h2, List.length_nil, lt_irrefl, if_false]
    norm_num
  have hn : pickIntent (intentScores ro text) = none := (pickIntent_eq_none _).mpr hz
  constructor
  · unfold detect_intent
    rw [hn]
  · unfold detect_intent
    rw [hn]

/-- Witness for C4 on the text "zzz" with a matcher that matches nothing. -/
theorem detect_intent_fallback_witness :
    detect_intent oracleNone "zzz" none =
      { name := "fallback_handoff", confidence := 1/10, entities := [] } :=
  (detect_intent_fallback oracleNone "zzz" (by decide)).1

/-- C9: classification is deterministic — two calls of `detect_intent` with
identical text and no context yield identical name and confidence (the
embedding is a pure function of the text and the static tables; `re` is
deterministic). -/
theorem detect_intent_deterministic (ro : RegexOracle) (t₁ t₂ : String) (h : t₁ = t₂) :
    (detect_intent ro t₁ none).name = (detect_intent ro t₂ none).name ∧
    (detect_intent ro t₁ none).confidence = (detect_intent ro t₂ none).confidence := by
  subst h; exact ⟨rfl, rfl⟩

/-- Witness for C9 at the concrete text "who is my mla". -/
theorem detect_intent_deterministic_witness :
    (detect_intent oracleNone "who is my mla" none).name =
      (detect_intent oracleNone "who is my mla" none).name ∧
    (detect_intent oracleNone "who is my mla" none).confidence =
      (detect_intent oracleNone "who is my mla" none).confidence :=
  detect_intent_deterministic oracleNone "who is my mla" "who is my mla" rfl

/-- Componentwise form of bucket addition. -/
theorem SentScores.add_eq (a b : SentScores) :
    a + b = ⟨a.pos + b.pos, a.neg + b.neg, a.neu + b.neu⟩ := rfl

/-- `getLexicon` always yields one of the three static lexicons. -/
theorem getLexicon_cases (language : String) :
    getLexicon language = englishLexicon ∨ getLexicon language = hindiLexicon ∨
      getLexicon language = teluguLexicon := by
  unfold getLexicon
  split_ifs <;> simp

/-- In every language's lexicon the positive, negative and neutral word lists
are pairwise disjoint. -/
theorem lexicon_disjoint (language : String) :
    (∀ w ∈ (getLexicon language).positive,
      w ∉ (getLexicon language).negative ∧ w ∉ (getLexicon language).neutral) ∧
    (∀ w ∈ (getLexicon language).negative,
      w ∉ (getLexicon language).positive ∧ w ∉ (getLexicon language).neutral) ∧
    (∀ w ∈ (getLexicon language).neutral,
      w ∉ (getLexicon language).positive ∧ w ∉ (getLexicon language).negative) := by
  rcases getLexicon_cases language with h | h | h <;> rw [h] <;>
    exact ⟨by decide, by decide, by decide⟩

/-- C6: when a token is negated (a negator occurs within the 3 preceding
tokens), the scan accumulates a positive-lexicon word's weighted contribution
into the negative bucket, a negative-lexicon word's into the positive bucket,
and a neutral-lexicon word's into the neutral bucket unchanged. -/
theorem sentiment_negation_flip (language : String) (prevRev rest : List String) (w : String)
    (hneg : isNegatedCtx (getNegators language) prevRev = true) :
    (w ∈ (getLexicon language).positive →
      scanWords (getLexicon language) (getNegators language) (getIntensifiers language)
          prevRev (w :: rest) =
        SentScores.mk 0 (intensityMult (getIntensifiers language) prevRev) 0 +
          scanWords (getLexicon language) (getNegators language) (getIntensifiers language)
            (w :: prevRev) rest) ∧
    (w ∈ (getLexicon language).negative →
      scanWords (getLexicon language) (getNegators language) (getIntensifiers language)
          prevRev (w :: rest) =
        SentScores.mk (intensityMult (getIntensifiers language) prevRev) 0 0 +
          scanWords (getLexicon language) (getNegators language) (getIntensifiers language)
            (w :: prevRev) rest) ∧
    (w ∈ (getLexicon language).neutral →
      scanWords (getLexicon language) (getNegators language) (getIntensifiers language)
          prevRev (w :: rest) =
        SentScores.mk 0 0 (intensityMult (getIntensifiers language) prevRev) +
          scanWords (getLexicon language) (getNegators language) (getIntensifiers language)
            (w :: prevRev) rest) := by
  obtain ⟨d1, d2, d3⟩ := lexicon_disjoint language
  refine ⟨fun hw => ?_, fun hw => ?_, fun hw => ?_⟩ <;>
    simp only [scanWords] <;> congr 1
  · obtain ⟨hn2, hn3⟩ := d1 w hw
    simp only [tokenContribution, hneg]
    simp [hw, hn2, hn3, SentScores.add_eq]
  · obtain ⟨hn2, hn3⟩ := d2 w hw
    simp only [tokenContribution, hneg]
    simp [hw, hn2, hn3, SentScores.add_eq]
  · obtain ⟨hn2, hn3⟩ := d3 w hw
    simp only [tokenContribution, hneg]
    simp [hw, hn2, hn3, SentScores.add_eq]

/-- Witness for C6: in "not good", the positive word "good" contributes
weight 1 to the negative bucket. -/
theorem sentiment_negation_flip_witness :
    scanWords (getLexicon "english") (getNegators "english") (getIntensifiers "english")
        ["not"] ["good"] =
      SentScores.mk 0 (intensityMult (getIntensifiers "english") ["not"]) 0 +
        scanWords (getLexicon "english") (getNegators "english") (getIntensifiers "english")
          ["good", "not"] [] :=
  (sentiment_negation_flip "english" ["not"] [] "good" (by decide)).1 (by decide)

/-- C7: empty or whitespace-only input yields the neutral sentiment with score
0 and confidence 0 through the early-return guard, before any lexicon or
contextual scan. -/
theorem analyze_sentiment_empty (text language : String) (h : pyStrip text = "") :
    analyze_sentiment text language = ⟨SentimentLabel.neutral, 0, 0⟩ := by
  unfold analyze_sentiment
  rw [h]
  simp

/-- Witness for C7 at the whitespace-only text "   ". -/
theorem analyze_sentiment_empty_witness :
    analyze_sentiment "   " "english" = ⟨SentimentLabel.neutral, 0, 0⟩ :=
  analyze_sentiment_empty "   " "english" (by decide)

/-- C10: when the maximum combined score is at least 0.1, the label preference
on ties is fixed: positive whenever the positive score attains the maximum
(even on a tie with negative), otherwise negative whenever the negative score
attains it, and neutral exactly when the neutral score strictly exceeds both
others. -/
theorem determine_sentiment_tie_order (s : SentScores)
    (h : 1/10 ≤ max (max s.pos s.neg) s.neu) :
    (s.pos = max (max s.pos s.neg) s.neu →
      (determine_sentiment s).1 = SentimentLabel.positive) ∧
    (s.pos ≠ max (max s.pos s.neg) s.neu → s.neg = max (max s.pos s.neg) s.neu →
      (determine_sentiment s).1 = SentimentLabel.negative) ∧
    ((determine_sentiment s).1 = SentimentLabel.neutral ↔ s.pos < s.neu ∧ s.neg < s.neu) := by
  have hm : ¬ (max (max s.pos s.neg) s.neu < 1/10) := not_lt.mpr h
  have hL : (determine_sentiment s).1 =
      (if s.pos = max (max s.pos s.neg) s.neu then SentimentLabel.positive
       else if s.neg = max (max s.pos s.neg) s.neu then SentimentLabel.negative
       else SentimentLabel.neutral) := by
    unfold determine_sentiment
    rw [if_neg hm]
  refine ⟨?_, ?_, ?_⟩
  · intro hp
    rw [hL, if_pos hp]
  · intro hp hn
    rw [hL, if_neg hp, if_pos hn]
  · rw [hL]
    constructor
    · intro hl
      by_cases hp : s.pos = max (max s.pos s.neg) s.neu
      · rw [if_pos hp] at hl
        exact absurd hl (by simp)
      · by_cases hn : s.neg = max (max s.pos s.neg) s.neu
        · rw [if_neg hp, if_pos hn] at hl
          exact absurd hl (by simp)
        · have hmu : max (max s.pos s.neg) s.neu = s.neu := by
            rcases max_choice (max s.pos s.neg) s.neu with hc | hc
            · rcases max_choice s.pos s.neg with hd | hd
              · exact absurd ((hc.trans hd).symm) hp
              · exact absurd ((hc.trans hd).symm) hn
            · exact hc
          constructor
          · have hle : s.pos ≤ max (max s.pos s.neg) s.neu :=
              le_trans (le_max_left _ _) (le_max_left _ _)
            rw [hmu] at hle
            exact lt_of_le_of_ne hle (fun e => hp (by rw [hmu]; exact e))
          · have hle : s.neg ≤ max (max s.pos s.neg) s.neu :=
              le_trans (le_max_right _ _) (le_max_left _ _)
            rw [hmu] at hle
            exact lt_of_le_of_ne hle (fun e => hn (by rw [hmu]; exact e))
    · rintro ⟨h1, h2⟩
      have hmu : max (max s.pos s.neg) s.neu = s.neu :=
        max_eq_right (le_of_lt (max_lt h1 h2))
      have hp : s.pos ≠ max (max s.pos s.neg) s.neu := by
        rw [hmu]; exact ne_of_lt h1
      have hn : s.neg ≠ max (max s.pos s.neg) s.neu := by
        rw [hmu]; exact ne_of_lt h2
      rw [if_neg hp, if_neg hn]

/-- Witness for C10 at the tied triple (1/2, 1/2, 0): positive wins the tie. -/
theorem determine_sentiment_tie_order_witness :
    (determine_sentiment ⟨1/2, 1/2, 0⟩).1 = SentimentLabel.positive := by
  have h0 : max (max ((1:ℚ)/2) (1/2)) 0 = 1/2 := by
    rw [max_self]
    exact max_eq_left (by norm_num)
  have h : (1:ℚ)/10 ≤ max (max ((1:ℚ)/2) (1/2)) 0 := by rw [h0]; norm_num
  exact (determine_sentiment_tie_order ⟨1/2, 1/2, 0⟩ h).1 (by rw [h0])

/-- C2 counterexample: on a request with no pincode entity and no 6-digit run
in the question, `handle_pincode_help` does return `source = "validation"`
without touching any tier, but its `data` is not null — it is the dict
`{"message": "Please provide a valid 6-digit pincode"}`. -/
theorem pincode_validation_data_not_null :
    (handle_pincode_help (fun _ => TierResult.raised) (fun _ => TierResult.raised)
        mockPincodeTier [] "hello").rsource = "validation" ∧
    (handle_pincode_help (fun _ => TierResult.raised) (fun _ => TierResult.raised)
        mockPincodeTier [] "hello").rdata ≠ PyVal.pynone := by
  refine ⟨rfl, ?_⟩
  intro hcontr
  have hd : (handle_pincode_help (fun _ => TierResult.raised) (fun _ => TierResult.raised)
      mockPincodeTier [] "hello").rdata =
      PyVal.dict [("message", PyVal.str "Please provide a valid 6-digit pincode")] := rfl
  rw [hd] at hcontr
  exact PyVal.noConfusion hcontr

/-- C2 (amended): when neither the entities nor the question yield a truthy
6-digit pincode, `handle_pincode_help` returns the validation result — source
"validation", data the explanatory message dict (not null) — for every
behaviour of the three tiers, so no tier is attempted and nothing is raised. -/
theorem handle_pincode_help_validation (api scrape : EntityVal → TierResult)
    (mockFn : EntityVal → Option PyVal)
    (entities : List (String × EntityVal)) (question : String)
    (h1 : entityTruthy (entities.lookup "pincode") = false)
    (h2 : findSixDigit question = none) :
    handle_pincode_help api scrape mockFn entities question = pincodeValidationResult ∧
    pincodeValidationResult.rsource = "validation" ∧
    pincodeValidationResult.rdata =
      PyVal.dict [("message", PyVal.str "Please provide a valid 6-digit pincode")] := by
  refine ⟨?_, rfl, rfl⟩
  unfold handle_pincode_help
  simp only [h1, h2, Bool.false_eq_true, if_false]
  cases hl : entities.lookup "pincode" with
  | none => rfl
  | some pv =>
    rw [hl] at h1
    simp only [h1, Bool.false_eq_true, if_false]

/-- Witness for C2 (amended) on an empty entity set and the question "hello". -/
theorem handle_pincode_help_validation_witness :
    handle_pincode_help (fun _ => TierResult.value PyVal.pynone)
        (fun _ => TierResult.value PyVal.pynone) mockPincodeTier
        [("location", EntityVal.s "delhi")] "hello there" = pincodeValidationResult :=
  (handle_pincode_help_validation (fun _ => TierResult.value PyVal.pynone)
    (fun _ => TierResult.value PyVal.pynone) mockPincodeTier
    [("location", EntityVal.s "delhi")] "hello there" (by decide) (by decide)).1

/-- The scrape-then-mock tail reports the mock value with source "mock" when
the scrape tier raised or returned a falsy value. -/
theorem pincodeScrapeMock_empty (scrape : EntityVal → TierResult)
    (mockFn : EntityVal → Option PyVal) (pv : EntityVal)
    (hs : TierResult.isEmptyOutcome (scrape pv) = true) :
    pincodeScrapeMock scrape mockFn pv =
      { rtype := "pincode_info", rdata := optToPy (mockFn pv), rsource := "mock" } := by
  unfold pincodeScrapeMock
  cases hA : scrape pv with
  | raised => rfl
  | value v =>
    rw [hA] at hs
    simp only [TierResult.isEmptyOutcome, Bool.not_eq_eq_eq_not, Bool.not_true] at hs
    simp [hs]

/-- C5: for every syntactically valid 6-digit pincode outside the static
sample set {110001, 560001, 400001}, the mock lookup returns the generic
placeholder record (never null), and when the API and scraping tiers produced
nothing the chain reports exactly that record with source "mock". -/
theorem mock_pincode_placeholder (p : String)
    (entities : List (String × EntityVal)) (question : String)
    (api scrape : EntityVal → TierResult)
    (hvalid : p.length = 6 ∧ p.data.all Char.isDigit = true)
    (hn1 : p ≠ "110001") (hn2 : p ≠ "560001") (hn3 : p ≠ "400001")
    (hent : entities.lookup "pincode" = some (EntityVal.s p))
    (hapi : TierResult.isEmptyOutcome (api (EntityVal.s p)) = true)
    (hscrape : TierResult.isEmptyOutcome (scrape (EntityVal.s p)) = true) :
    get_pincode_info p = some (genericPincodeInfo p) ∧
    handle_pincode_help api scrape mockPincodeTier entities question =
      { rtype := "pincode_info", rdata := genericPincodeInfo p, rsource := "mock" } := by
  have hlook : pincodeDirectory.lookup p = none := by
    have hb1 : (p == "110001") = false := beq_eq_false_iff_ne.mpr hn1
    have hb2 : (p == "560001") = false := beq_eq_false_iff_ne.mpr hn2
    have hb3 : (p == "400001") = false := beq_eq_false_iff_ne.mpr hn3
    simp [pincodeDirectory, List.lookup, hb1, hb2, hb3]
  have hmock : get_pincode_info p = some (genericPincodeInfo p) := by
    unfold get_pincode_info
    rw [hlook]
  have hne : p ≠ "" := by
    intro e
    rw [e] at hvalid
    simp at hvalid
  have htr : entityTruthy (some (EntityVal.s p)) = true := by
    simp [entityTruthy, hne]
  refine ⟨hmock, ?_⟩
  unfold handle_pincode_help
  simp only [hent, htr, if_true]
  have htail : pincodeScrapeMock scrape mockPincodeTier (EntityVal.s p) =
      { rtype := "pincode_info", rdata := genericPincodeInfo p, rsource := "mock" } := by
    rw [pincodeScrapeMock_empty scrape mockPincodeTier (EntityVal.s p) hscrape]
    simp only [mockPincodeTier, hmock, optToPy]
  cases hA : api (EntityVal.s p) with
  | raised => exact htail
  | value v =>
    rw [hA] at hapi
    simp only [TierResult.isEmptyOutcome, Bool.not_eq_eq_eq_not, Bool.not_true] at hapi
    simp only [hapi, Bool.false_eq_true, if_false]
    exact htail

/-- Witness for C5 at the unknown valid pincode 999999 with failing API and
scraping tiers. -/
theorem mock_pincode_placeholder_witness :
    get_pincode_info "999999" = some (genericPincodeInfo "999999") ∧
    handle_pincode_help (fun _ => TierResult.raised) (fun _ => TierResult.raised)
        mockPincodeTier [("pincode", EntityVal.s "999999")] "x" =
      { rtype := "pincode_info", rdata := genericPincodeInfo "999999", rsource := "mock" } :=
  mock_pincode_placeholder "999999" [("pincode", EntityVal.s "999999")] "x"
    (fun _ => TierResult.raised) (fun _ => TierResult.raised)
    ⟨by decide, by decide⟩ (by decide) (by decide) (by decide) (by decide) rfl rfl

/-- A successful raising dict access pins down the lookup. -/
theorem dictGetE_ok (kvs : List (String × PyVal)) (k : String) (v : PyVal)
    (h : dictGetE kvs k = Except.ok v) : kvs.lookup k = some v := by
  unfold dictGetE at h
  cases hl : kvs.lookup k with
  | some w =>
    rw [hl] at h
    cases h
    rfl
  | none =>
    rw [hl] at h
    exact Except.noConfusion h

/-- Every list is a prefix of itself. -/
theorem isPrefixOf_self (l : List Char) : l.isPrefixOf l = true := by
  induction l with
  | nil => rfl
  | cons c t ih => simp [List.isPrefixOf, ih]

/-- A list occurs inside anything it is appended to. -/
theorem listInfixOf_append (l p : List Char) : listInfixOf p (l ++ p) = true := by
  induction l with
  | nil =>
    cases p with
    | nil => rfl
    | cons c t => simp [listInfixOf, isPrefixOf_self]
  | cons c t ih => simp [listInfixOf, ih]

/-- An appended suffix is contained in the result. -/
theorem strContains_append (a b : String) : strContains (a ++ b) b = true := by
  unfold strContains
  rw [String.data_append]
  exact listInfixOf_append a.data b.data

/-- A successful MLA formatter reports either the literal "fallback" source or
the input's `data["source"]`. -/
theorem mlaCore_ok_source (rnd : Nat) (data : List (String × PyVal)) (lang : String)
    (r : ResponseData) (h : mlaCore rnd data lang = Except.ok r) :
    r.source = PyVal.str "fallback" ∨ data.lookup "source" = some r.source := by
  unfold mlaCore at h
  simp only [bind, Except.bind] at h
  repeat' split at h
  all_goals cases h
  all_goals first
    | (left; rfl)
    | (right; exact dictGetE_ok _ _ _ (by assumption))

/-- A successful MP formatter reports "fallback" or the input source. -/
theorem mpCore_ok_source (rnd : Nat) (data : List (String × PyVal)) (lang : String)
    (r : ResponseData) (h : mpCore rnd data lang = Except.ok r) :
    r.source = PyVal.str "fallback" ∨ data.lookup "source" = some r.source := by
  unfold mpCore at h
  simp only [bind, Except.bind] at h
  repeat' split at h
  all_goals cases h
  all_goals first
    | (left; rfl)
    | (right; exact dictGetE_ok _ _ _ (by assumption))

/-- A successful scheme formatter reports "fallback" or the input source. -/
theorem schemeCore_ok_source (rnd : Nat) (data : List (String × PyVal)) (lang : String)
    (r : ResponseData) (h : schemeCore rnd data lang = Except.ok r) :
    r.source = PyVal.str "fallback" ∨ data.lookup "source" = some r.source := by
  unfold schemeCore at h
  simp only [bind, Except.bind] at h
  repeat' split at h
  all_goals cases h
  all_goals first
    | (left; rfl)
    | (right; exact dictGetE_ok _ _ _ (by assumption))

/-- A successful health formatter reports "fallback" or the input source. -/
theorem healthCore_ok_source (rnd : Nat) (data : List (String × PyVal)) (lang : String)
    (r : ResponseData) (h : healthCore rnd data lang = Except.ok r) :
    r.source = PyVal.str "fallback" ∨ data.lookup "source" = some r.source := by
  unfold healthCore at h
  simp only [bind, Except.bind] at h
  repeat' split at h
  all_goals cases h
  all_goals first
    | (left; rfl)
    | (right; exact dictGetE_ok _ _ _ (by assumption))

/-- A successful price formatter reports "fallback" or the input source. -/
theorem priceCore_ok_source (rnd : Nat) (today : String) (data : List (String × PyVal))
    (lang : String) (r : ResponseData) (h : priceCore rnd today data lang = Except.ok r) :
    r.source = PyVal.str "fallback" ∨ data.lookup "source" = some r.source := by
  unfold priceCore at h
  simp only [bind, Except.bind] at h
  repeat' split at h
  all_goals cases h
  all_goals first
    | (left; rfl)
    | (right; exact dictGetE_ok _ _ _ (by assumption))

/-- A successful pincode formatter reports "fallback" or the input source. -/
theorem pincodeCore_ok_source (rnd : Nat) (data : List (String × PyVal)) (lang : String)
    (r : ResponseData) (h : pincodeCore rnd data lang = Except.ok r) :
    r.source = PyVal.str "fallback" ∨ data.lookup "source" = some r.source := by
  unfold pincodeCore at h
  simp only [bind, Except.bind] at h
  repeat' split at h
  all_goals cases h
  all_goals first
    | (left; rfl)
    | (right; exact dictGetE_ok _ _ _ (by assumption))

/-- A successful FAQ formatter reports "fallback" or the input source. -/
theorem faqCore_ok_source (rnd : Nat) (data : List (String × PyVal)) (lang : String)
    (r : ResponseData) (h : faqCore rnd data lang = Except.ok r) :
    r.source = PyVal.str "fallback" ∨ data.lookup "source" = some r.source := by
  unfold faqCore at h
  simp only [bind, Except.bind] at h
  repeat' split at h
  all_goals cases h
  all_goals first
    | (left; rfl)
    | (right; exact dictGetE_ok _ _ _ (by assumption))

/-- The generic fallback formatter always reports the "fallback" source. -/
theorem fallbackCore_ok_source (rnd : Nat) (lang : String)
    (r : ResponseData) (h : fallbackCore rnd lang = Except.ok r) :
    r.source = PyVal.str "fallback" := by
  unfold fallbackCore at h
  simp only [bind, Except.bind] at h
  repeat' split at h
  all_goals cases h
  all_goals rfl

/-- The dispatched formatter's source is the literal "fallback", the literal
"error", or the input's `data["source"]` value. -/
theorem dispatchResponse_source (rnd : Nat) (today nm : String)
    (data : List (String × PyVal)) (lang : String) :
    (dispatchResponse rnd today nm data lang).source = PyVal.str "fallback" ∨
    (dispatchResponse rnd today nm data lang).source = PyVal.str "error" ∨
    data.lookup "source" = some (dispatchResponse rnd today nm data lang).source := by
  unfold dispatchResponse
  cases hf : formatterCore rnd today nm data lang with
  | error e => right; left; rfl
  | ok r =>
    unfold formatterCore at hf
    repeat' split at hf
    · rcases mlaCore_ok_source _ _ _ _ hf with h | h
      · exact Or.inl h
      · exact Or.inr (Or.inr h)
    · rcases mpCore_ok_source _ _ _ _ hf with h | h
      · exact Or.inl h
      · exact Or.inr (Or.inr h)
    · rcases schemeCore_ok_source _ _ _ _ hf with h | h
      · exact Or.inl h
      · exact Or.inr (Or.inr h)
    · rcases healthCore_ok_source _ _ _ _ hf with h | h
      · exact Or.inl h
      · exact Or.inr (Or.inr h)
    · rcases priceCore_ok_source _ _ _ _ _ hf with h | h
      · exact Or.inl h
      · exact Or.inr (Or.inr h)
    · rcases pincodeCore_ok_source _ _ _ _ hf with h | h
      · exact Or.inl h
      · exact Or.inr (Or.inr h)
    · rcases faqCore_ok_source _ _ _ _ hf with h | h
      · exact Or.inl h
      · exact Or.inr (Or.inr h)
    · exact Or.inl (fallbackCore_ok_source _ _ _ hf)

/-- C8: `generate_response` never propagates an internal error — whenever the
dispatched per-intent body raises, the caller receives the generic localized
error message with source "error" (the embedding is total by construction, so
nothing reaches the caller as an exception). -/
theorem generate_response_error_conversion (rnd : Nat) (today intentName : String)
    (data : List (String × PyVal)) (lang : String)
    (h : formatterCore rnd today intentName data lang = Except.error ()) :
    generate_response rnd today intentName data lang = errorResponse lang ∧
    (generate_response rnd today intentName data lang).source = PyVal.str "error" := by
  have hd : dispatchResponse rnd today intentName data lang = errorResponse lang := by
    unfold dispatchResponse
    rw [h]
  constructor
  · unfold generate_response
    rw [hd]
    rfl
  · unfold generate_response
    rw [hd]
    rfl

/-- Witness for C8: an empty result dict makes the MLA formatter raise a
`KeyError` on `data["type"]`, and the output is the localized error response. -/
theorem generate_response_error_conversion_witness :
    generate_response 0 "2024-01-01" "survey_mla_name" [] "english" = errorResponse "english" :=
  (generate_response_error_conversion 0 "2024-01-01" "survey_mla_name" [] "english" rfl).1

/-- C1 counterexample: a data-source result with `source = "mock"` and present
data, handed to an intent outside the dispatch table (`fallback_handoff`),
is answered by the generic fallback formatter with source "fallback" and the
returned message does not contain the mock disclaimer. -/
theorem mock_result_without_disclaimer :
    (generate_response 0 "2024-01-01" "fallback_handoff"
        [("type", PyVal.str "pincode_info"),
         ("data", PyVal.dict [("pincode", PyVal.str "110001")]),
         ("source", PyVal.str "mock")] "english").source = PyVal.str "fallback" ∧
    strContains (generate_response 0 "2024-01-01" "fallback_handoff"
        [("type", PyVal.str "pincode_info"),
         ("data", PyVal.dict [("pincode", PyVal.str "110001")]),
         ("source", PyVal.str "mock")] "english").message
      (mockDisclaimer "english") = false := by
  constructor
  · rfl
  · decide

/-- C1 (amended): the localized mock disclaimer is appended after the main
message exactly when the per-intent formatter reports source "mock" — which it
does only when the input result itself carries `data["source"] = "mock"` (so a
handled intent with matching type, present data and available templates); for
a formatter-reported source other than "mock" (in particular whenever the
input's source is "api" or "scraping") the message is returned with no
disclaimer appended. -/
theorem mock_disclaimer_append (rnd : Nat) (today nm : String)
    (data : List (String × PyVal)) (lang : String) :
    ((dispatchResponse rnd today nm data lang).source = PyVal.str "mock" →
      (generate_response rnd today nm data lang).message =
        (dispatchResponse rnd today nm data lang).message ++ "\n\n" ++ mockDisclaimer lang ∧
      strContains (generate_response rnd today nm data lang).message (mockDisclaimer lang)
        = true ∧
      data.lookup "source" = some (PyVal.str "mock")) ∧
    (∀ s, (dispatchResponse rnd today nm data lang).source = PyVal.str s → s ≠ "mock" →
      (generate_response rnd today nm data lang).message =
        (dispatchResponse rnd today nm data lang).message) := by
  constructor
  · intro hm
    have hb : isStr (dispatchResponse rnd today nm data lang).source "mock" = true := by
      rw [hm]
      simp [isStr]
    have hmsg : (generate_response rnd today nm data lang).message =
        (dispatchResponse rnd today nm data lang).message ++ "\n\n" ++ mockDisclaimer lang := by
      unfold generate_response
      simp only [hb, if_true]
    refine ⟨hmsg, ?_, ?_⟩
    · rw [hmsg]
      exact strContains_append _ _
    · rcases dispatchResponse_source rnd today nm data lang with h | h | h
      · exfalso
        rw [hm] at h
        injection h with h2
        exact absurd h2 (by decide)
      · exfalso
        rw [hm] at h
        injection h with h2
        exact absurd h2 (by decide)
      · rw [hm] at h
        exact h
  · intro s hs hne
    have hb : isStr (dispatchResponse rnd today nm data lang).source "mock" = false := by
      rw [hs]
      simp only [isStr]
      exact beq_eq_false_iff_ne.mpr hne
    unfold generate_response
    simp only [hb, Bool.false_eq_true, if_false]

/-- Witness for C1 (amended): a pincode result with source "mock" and present
data gets the english disclaimer appended to the message. -/
theorem mock_disclaimer_append_witness :
    strContains (generate_response 0 "2024-01-01" "ask_pincode_help"
        [("type", PyVal.str "pincode_info"),
         ("data", PyVal.dict [("pincode", PyVal.str "999999"),
           ("district", PyVal.str "Test District")]),
         ("source", PyVal.str "mock")] "english").message
      (mockDisclaimer "english") = true :=
  ((mock_disclaimer_append 0 "2024-01-01" "ask_pincode_help"
      [("type", PyVal.str "pincode_info"),
       ("data", PyVal.dict [("pincode", PyVal.str "999999"),
         ("district", PyVal.str "Test District")]),
       ("source", PyVal.str "mock")] "english").1 rfl).2.1
